import Mathlib

/-
Verification of the Starlight backend's chart and Ashtakoota compatibility
pipeline.  The Python services (`app/services/birth_chart.py` and
`app/services/compatibility_service.py`) are shallowly embedded below:
Python floats become rationals, Python ints become `Int`/`Nat`, Python
dict-with-default lookups become association-list lookups with `getD`,
and the string enumerations become inductive types carrying the same
member names.  Presentation-only fields (free-text descriptions,
factor dictionaries) are not modelled; every field that feeds a
computation is.
-/

set_option maxRecDepth 8000

/-- Python `x % m` for rationals with a positive modulus `m`: the
remainder with the sign of the divisor, so the result lies in `[0, m)`. -/
def pymod (x m : ℚ) : ℚ := x - m * ⌊x / m⌋

/-- Python `int(x)` on a float: truncation toward zero. -/
def pyint (x : ℚ) : ℤ := if 0 ≤ x then ⌊x⌋ else ⌈x⌉

/-- Python `<` on two strings: lexicographic comparison of the
code-point sequences, with a proper prefix comparing smaller. -/
def pyStrLt : List Char → List Char → Bool
  | [], [] => false
  | [], _ :: _ => true
  | _ :: _, [] => false
  | c1 :: r1, c2 :: r2 =>
    if c1 < c2 then true else if c2 < c1 then false else pyStrLt r1 r2

/-- Python `max` on two strings: lexicographic comparison, returning the
second argument only when it is strictly greater. -/
def pymax (a b : String) : String := if pyStrLt a.data b.data then b else a

/-- The `ZodiacSign` enumeration of `app/models`. -/
inductive ZodiacSign where
  | Aries | Taurus | Gemini | Cancer | Leo | Virgo
  | Libra | Scorpio | Sagittarius | Capricorn | Aquarius | Pisces
deriving DecidableEq, Fintype

/-- The `Planet` enumeration of `app/models`. -/
inductive Planet where
  | SUN | MOON | MERCURY | VENUS | MARS | JUPITER | SATURN
  | URANUS | NEPTUNE | PLUTO | RAHU | KETU | ASCENDANT
deriving DecidableEq

/-- The `ZODIAC_SIGNS` list of `birth_chart.py`. -/
def ZODIAC_SIGNS : List ZodiacSign :=
  [.Aries, .Taurus, .Gemini, .Cancer, .Leo, .Virgo,
   .Libra, .Scorpio, .Sagittarius, .Capricorn, .Aquarius, .Pisces]

/-- `BirthChartService.get_zodiac_sign`: index `int(longitude // 30)`
into `ZODIAC_SIGNS`.  All call sites pass a longitude in `[0, 360)`,
for which the index is in range. -/
def get_zodiac_sign (longitude : ℚ) : ZodiacSign :=
  ZODIAC_SIGNS.getD (⌊longitude / 30⌋).toNat ZodiacSign.Aries

/-- `BirthChartService.get_degree_in_sign`: `longitude % 30`. -/
def get_degree_in_sign (longitude : ℚ) : ℚ := pymod longitude 30

/-- `BirthChartService.apply_ayanamsa_correction`: subtract the ayanamsa
and add 360 once if the result went negative. -/
def apply_ayanamsa_correction (longitude ayanamsa_value : ℚ) : ℚ :=
  let corrected_longitude := longitude - ayanamsa_value
  if corrected_longitude < 0 then corrected_longitude + 360 else corrected_longitude

/-- The `PlanetPosition` model (numeric and categorical fields). -/
structure PlanetPosition where
  planet : Planet
  longitude : ℚ
  latitude : ℚ
  distance : ℚ
  speed : ℚ
  sign : ZodiacSign
  degree : ℚ
  house : ℕ
  retrograde : Bool
deriving DecidableEq

/-- The loop-body condition of `BirthChartService.get_house_number` for
0-based house index `i` over already-normalized cusps: the wraparound
branch applies when the current cusp exceeds the next one, otherwise the
half-open interval test. -/
def house_condition (c : Fin 12 → ℚ) (L : ℚ) (i : Fin 12) : Prop :=
  if c (i + 1) < c i then c i ≤ L ∨ L < c (i + 1)
  else c i ≤ L ∧ L < c (i + 1)

instance house_condition_dec (c : Fin 12 → ℚ) (L : ℚ) (i : Fin 12) :
    Decidable (house_condition c L i) :=
  if h : c (i + 1) < c i then
    decidable_of_iff (c i ≤ L ∨ L < c (i + 1))
      (by unfold house_condition; rw [if_pos h])
  else
    decidable_of_iff (c i ≤ L ∧ L < c (i + 1))
      (by unfold house_condition; rw [if_neg h])

/-- The loop body of `BirthChartService.get_house_number` at 0-based
index `i`, over the raw cusp list: normalize, fetch the current and next
(mod 12) cusps, and test the wraparound or the half-open branch. -/
def house_scan (longitude : ℚ) (house_cusps : List ℚ) (i : ℕ) : Bool :=
  let normalized_cusps := house_cusps.map (fun cusp => pymod cusp 360)
  let cusp_current := normalized_cusps.getD i 0
  let cusp_next := normalized_cusps.getD ((i + 1) % 12) 0
  if cusp_next < cusp_current then
    decide (cusp_current ≤ pymod longitude 360) || decide (pymod longitude 360 < cusp_next)
  else
    decide (cusp_current ≤ pymod longitude 360) && decide (pymod longitude 360 < cusp_next)

/-- `BirthChartService.get_house_number`: normalize the longitude and the
cusps into `[0, 360)`, scan the 12 houses in order returning the first
(1-based) match, and fall back to house 1. -/
def get_house_number (longitude : ℚ) (house_cusps : List ℚ) : ℕ :=
  match (List.range 12).find? (house_scan longitude house_cusps) with
  | some i => i + 1
  | none => 1

/-- One `swe.calc_ut` result: tropical longitude, ecliptic latitude,
distance and longitudinal speed. -/
structure CalcResult where
  longitude : ℚ
  latitude : ℚ
  distance : ℚ
  speed : ℚ

/-- The planets that carry an entry in `PLANET_CONSTANTS`, in the order
the `for planet_enum in Planet` loop visits them. -/
def ephemeris_planets : List Planet :=
  [.SUN, .MOON, .MERCURY, .VENUS, .MARS, .JUPITER, .SATURN,
   .URANUS, .NEPTUNE, .PLUTO, .RAHU]

/-- `BirthChartService.calculate_planet_positions`, with the ephemeris
call abstracted as a function from planet to `swe.calc_ut` result.  For
Rahu the loop first synthesizes and appends the Ketu entry, then falls
through to append the Rahu entry itself. -/
def calculate_planet_positions (calc_ut : Planet → CalcResult)
    (house_cusps : List ℚ) (ayanamsa_value : ℚ) : List PlanetPosition :=
  (ephemeris_planets.map (fun planet_enum =>
    let r := calc_ut planet_enum
    let longitude := apply_ayanamsa_correction r.longitude ayanamsa_value
    let main : PlanetPosition :=
      { planet := planet_enum
        longitude := longitude
        latitude := r.latitude
        distance := r.distance
        speed := r.speed
        sign := get_zodiac_sign longitude
        degree := get_degree_in_sign longitude
        house := get_house_number longitude house_cusps
        retrograde := decide (r.speed < 0) }
    if planet_enum = Planet.RAHU then
      let ketu_longitude := pymod (longitude + 180) 360
      [{ planet := Planet.KETU
         longitude := ketu_longitude
         latitude := -r.latitude
         distance := r.distance
         speed := -r.speed
         sign := get_zodiac_sign ketu_longitude
         degree := get_degree_in_sign ketu_longitude
         house := get_house_number ketu_longitude house_cusps
         retrograde := decide (r.speed < 0) }, main]
    else [main])).flatten

/-- A concrete ephemeris stub on which the true node moves direct
(positive longitudinal speed), as `swe.TRUE_NODE` periodically does. -/
def direct_node_ephemeris : Planet → CalcResult :=
  fun p => if p = Planet.RAHU then ⟨10, 2, 1, 1⟩ else ⟨0, 0, 1, 0⟩

/-- The validation failures `_validate_birth_data` can accumulate. -/
inductive ValidationIssue where
  | invalid_date_format
  | year_out_of_range
  | invalid_time_format
  | invalid_latitude
  | invalid_longitude
  | invalid_timezone
deriving DecidableEq

/-- The inputs of `_validate_birth_data` after string parsing: whether
the date and time strings parse, the parsed calendar year, the
coordinates, and whether a timezone name was supplied and recognized. -/
structure BirthDataCheck where
  date_parses : Bool
  year : ℤ
  time_parses : Bool
  latitude : ℚ
  longitude : ℚ
  timezone_given : Bool
  timezone_known : Bool

/-- The `errors` list `_validate_birth_data` builds, in source order.
The year check runs only when the date parses, and appends the message
"Birth year ... is outside optimal range (1900-2100)" as an error. -/
def validation_errors (b : BirthDataCheck) : List ValidationIssue :=
  (if b.date_parses then
     (if b.year < 1900 ∨ 2100 < b.year then [ValidationIssue.year_out_of_range] else [])
   else [ValidationIssue.invalid_date_format]) ++
  (if b.time_parses then [] else [ValidationIssue.invalid_time_format]) ++
  (if -90 ≤ b.latitude ∧ b.latitude ≤ 90 then [] else [ValidationIssue.invalid_latitude]) ++
  (if -180 ≤ b.longitude ∧ b.longitude ≤ 180 then [] else [ValidationIssue.invalid_longitude]) ++
  (if b.timezone_given ∧ ¬ b.timezone_known then [ValidationIssue.invalid_timezone] else [])

/-- `_validate_birth_data`: raise `ValueError` (here `Except.error`) as
soon as the accumulated error list is nonempty, otherwise return.
`generate_birth_chart` calls this before any computation and re-raises
its exception, so an error here aborts the whole chart request. -/
def validate_birth_data (b : BirthDataCheck) : Except (List ValidationIssue) Unit :=
  if validation_errors b = [] then Except.ok () else Except.error (validation_errors b)

/-- The Varna classes of `CompatibilityMatchingService.varna_system`. -/
inductive Varna where
  | Brahmin | Kshatriya | Vaishya | Shudra
deriving DecidableEq

/-- The Vashya classes of `vashya_system`. -/
inductive Vashya where
  | Quadruped | Human | Water | Insect
deriving DecidableEq

/-- The Gana classes of the nakshatra table. -/
inductive Gana where
  | Deva | Manushya | Rakshasa
deriving DecidableEq

/-- The Yoni animal classes of the nakshatra table. -/
inductive Yoni where
  | Horse | Elephant | Goat | Serpent | Dog | Cat | Rat | Cow
  | Buffalo | Tiger | Deer | Monkey | Mongoose | Lion
deriving DecidableEq, Fintype

/-- The Nadi classes of the nakshatra table. -/
inductive Nadi where
  | Vata | Pitta | Kapha
deriving DecidableEq

/-- One row of the 27-entry `nakshatras` table. -/
structure Nakshatra where
  name : String
  lord : String
  gana : Gana
  yoni : Yoni
  nadi : Nadi
deriving DecidableEq

/-- The `nakshatras` table of `_init_nakshatra_data`, rows 1-27 in
order (index 0 of this list is nakshatra number 1). -/
def nakshatra_table : List Nakshatra :=
  [⟨"Ashwini", "Ketu", .Deva, .Horse, .Vata⟩,
   ⟨"Bharani", "Venus", .Manushya, .Elephant, .Pitta⟩,
   ⟨"Krittika", "Sun", .Rakshasa, .Goat, .Kapha⟩,
   ⟨"Rohini", "Moon", .Manushya, .Serpent, .Kapha⟩,
   ⟨"Mrigashira", "Mars", .Deva, .Serpent, .Pitta⟩,
   ⟨"Ardra", "Rahu", .Manushya, .Dog, .Vata⟩,
   ⟨"Punarvasu", "Jupiter", .Deva, .Cat, .Vata⟩,
   ⟨"Pushya", "Saturn", .Deva, .Goat, .Pitta⟩,
   ⟨"Ashlesha", "Mercury", .Rakshasa, .Cat, .Kapha⟩,
   ⟨"Magha", "Ketu", .Rakshasa, .Rat, .Kapha⟩,
   ⟨"Purva Phalguni", "Venus", .Manushya, .Rat, .Pitta⟩,
   ⟨"Uttara Phalguni", "Sun", .Manushya, .Cow, .Vata⟩,
   ⟨"Hasta", "Moon", .Deva, .Buffalo, .Vata⟩,
   ⟨"Chitra", "Mars", .Rakshasa, .Tiger, .Pitta⟩,
   ⟨"Swati", "Rahu", .Deva, .Buffalo, .Kapha⟩,
   ⟨"Vishakha", "Jupiter", .Rakshasa, .Tiger, .Kapha⟩,
   ⟨"Anuradha", "Saturn", .Deva, .Deer, .Pitta⟩,
   ⟨"Jyeshtha", "Mercury", .Rakshasa, .Deer, .Vata⟩,
   ⟨"Moola", "Ketu", .Rakshasa, .Dog, .Vata⟩,
   ⟨"Purva Ashadha", "Venus", .Manushya, .Monkey, .Pitta⟩,
   ⟨"Uttara Ashadha", "Sun", .Manushya, .Mongoose, .Kapha⟩,
   ⟨"Shravana", "Moon", .Deva, .Monkey, .Kapha⟩,
   ⟨"Dhanishta", "Mars", .Rakshasa, .Lion, .Pitta⟩,
   ⟨"Shatabhisha", "Rahu", .Rakshasa, .Horse, .Vata⟩,
   ⟨"Purva Bhadrapada", "Jupiter", .Manushya, .Lion, .Vata⟩,
   ⟨"Uttara Bhadrapada", "Saturn", .Manushya, .Cow, .Pitta⟩,
   ⟨"Revati", "Mercury", .Deva, .Elephant, .Kapha⟩]

/-- Row lookup in the nakshatra table; the argument `n : Fin 27` stands
for nakshatra number `n + 1`. -/
def nakshatras (n : Fin 27) : Nakshatra :=
  nakshatra_table.getD n.val ⟨"", "", .Deva, .Horse, .Vata⟩

/-- `varna_system`: Moon-sign to Varna class. -/
def varna_system : ZodiacSign → Varna
  | .Aries => .Kshatriya
  | .Taurus => .Vaishya
  | .Gemini => .Shudra
  | .Cancer => .Brahmin
  | .Leo => .Kshatriya
  | .Virgo => .Vaishya
  | .Libra => .Shudra
  | .Scorpio => .Brahmin
  | .Sagittarius => .Kshatriya
  | .Capricorn => .Vaishya
  | .Aquarius => .Shudra
  | .Pisces => .Brahmin

/-- `vashya_system`: Moon-sign to Vashya class. -/
def vashya_system : ZodiacSign → Vashya
  | .Aries => .Quadruped
  | .Taurus => .Quadruped
  | .Gemini => .Human
  | .Cancer => .Water
  | .Leo => .Quadruped
  | .Virgo => .Human
  | .Libra => .Human
  | .Scorpio => .Insect
  | .Sagittarius => .Human
  | .Capricorn => .Water
  | .Aquarius => .Human
  | .Pisces => .Water

/-- The `varna_compatibility` matrix (dict lookup with default 0). -/
def varna_compatibility : List ((Varna × Varna) × ℕ) :=
  [((.Brahmin, .Brahmin), 1), ((.Brahmin, .Kshatriya), 1),
   ((.Brahmin, .Vaishya), 1), ((.Brahmin, .Shudra), 1),
   ((.Kshatriya, .Brahmin), 0), ((.Kshatriya, .Kshatriya), 1),
   ((.Kshatriya, .Vaishya), 1), ((.Kshatriya, .Shudra), 1),
   ((.Vaishya, .Brahmin), 0), ((.Vaishya, .Kshatriya), 0),
   ((.Vaishya, .Vaishya), 1), ((.Vaishya, .Shudra), 1),
   ((.Shudra, .Brahmin), 0), ((.Shudra, .Kshatriya), 0),
   ((.Shudra, .Vaishya), 0), ((.Shudra, .Shudra), 1)]

/-- The `vashya_compatibility` matrix. -/
def vashya_compatibility : List ((Vashya × Vashya) × ℕ) :=
  [((.Quadruped, .Quadruped), 2), ((.Quadruped, .Human), 1),
   ((.Human, .Human), 2), ((.Human, .Water), 1), ((.Human, .Insect), 0),
   ((.Water, .Water), 2), ((.Water, .Human), 1),
   ((.Insect, .Insect), 2), ((.Insect, .Human), 0)]

/-- The `gana_compatibility` matrix. -/
def gana_compatibility : List ((Gana × Gana) × ℕ) :=
  [((.Deva, .Deva), 6), ((.Deva, .Manushya), 5), ((.Deva, .Rakshasa), 0),
   ((.Manushya, .Deva), 5), ((.Manushya, .Manushya), 6), ((.Manushya, .Rakshasa), 0),
   ((.Rakshasa, .Deva), 0), ((.Rakshasa, .Manushya), 0), ((.Rakshasa, .Rakshasa), 6)]

/-- The `yoni_compatibility` matrix, exactly the pairs listed in the
source (unlisted pairs fall to the defaulting logic of the scorer). -/
def yoni_compatibility : List ((Yoni × Yoni) × ℕ) :=
  [((.Horse, .Horse), 4), ((.Elephant, .Elephant), 4), ((.Goat, .Goat), 4),
   ((.Serpent, .Serpent), 4), ((.Dog, .Dog), 4), ((.Cat, .Cat), 4),
   ((.Rat, .Rat), 4), ((.Cow, .Cow), 4), ((.Buffalo, .Buffalo), 4),
   ((.Tiger, .Tiger), 4), ((.Deer, .Deer), 4), ((.Monkey, .Monkey), 4),
   ((.Mongoose, .Mongoose), 4), ((.Lion, .Lion), 4),
   ((.Horse, .Elephant), 3), ((.Goat, .Cow), 3),
   ((.Serpent, .Mongoose), 0), ((.Dog, .Deer), 2), ((.Cat, .Rat), 0),
   ((.Tiger, .Deer), 0), ((.Buffalo, .Tiger), 3), ((.Monkey, .Lion), 2)]

/-- The `nadi_compatibility` matrix. -/
def nadi_compatibility : List ((Nadi × Nadi) × ℕ) :=
  [((.Vata, .Vata), 0), ((.Pitta, .Pitta), 0), ((.Kapha, .Kapha), 0),
   ((.Vata, .Pitta), 8), ((.Vata, .Kapha), 8), ((.Pitta, .Vata), 8),
   ((.Pitta, .Kapha), 8), ((.Kapha, .Vata), 8), ((.Kapha, .Pitta), 8)]

/-- The `bhakoot_compatibility` dict keyed by sign distance. -/
def bhakoot_compatibility : List (ℕ × ℕ) :=
  [(1, 0), (2, 0), (3, 3), (4, 1), (5, 0), (6, 0),
   (7, 7), (8, 1), (9, 3), (10, 1), (11, 3), (12, 0)]

/-- `calculate_nakshatra_from_moon`: nakshatra number from the Moon's
sidereal longitude.  `nakshatra_span` is `13 + 20/60` degrees, the
quotient is truncated by `int`, and the result is capped at 27. -/
def calculate_nakshatra_from_moon (moon_longitude : ℚ) : ℤ :=
  let nakshatra_span : ℚ := 13 + 20 / 60
  let nakshatra_num : ℤ := pyint (moon_longitude / nakshatra_span) + 1
  min nakshatra_num 27

/-- The `CompatibilityLevel` enumeration. -/
inductive CompatibilityLevel where
  | EXCELLENT | VERY_GOOD | GOOD | AVERAGE | BELOW_AVERAGE | POOR
deriving DecidableEq

/-- The `KootaType` enumeration. -/
inductive KootaType where
  | VARNA | VASHYA | TARA | YONI | GRAH_MAITRI | GANA | BHAKOOT | NADI
deriving DecidableEq

/-- A `KootaScore` (numeric and categorical fields). -/
structure KootaScore where
  koota_type : KootaType
  points_earned : ℚ
  max_points : ℚ
  percentage : ℚ
  compatibility_level : CompatibilityLevel
deriving DecidableEq

/-- `_get_compatibility_level`: six-level classification of a 0-1 ratio,
with `>=` at every threshold (0.9, 0.75, 0.6, 0.4, 0.2). -/
def get_compatibility_level (percentage : ℚ) : CompatibilityLevel :=
  if 9/10 ≤ percentage then .EXCELLENT
  else if 3/4 ≤ percentage then .VERY_GOOD
  else if 3/5 ≤ percentage then .GOOD
  else if 2/5 ≤ percentage then .AVERAGE
  else if 1/5 ≤ percentage then .BELOW_AVERAGE
  else .POOR

/-- `calculate_varna_koota` (1 point max). -/
def calculate_varna_koota (person1_moon_sign person2_moon_sign : ZodiacSign) : KootaScore :=
  let person1_varna := varna_system person1_moon_sign
  let person2_varna := varna_system person2_moon_sign
  let points : ℚ := ((varna_compatibility.lookup (person1_varna, person2_varna)).getD 0 : ℕ)
  { koota_type := .VARNA, points_earned := points, max_points := 1,
    percentage := points / 1 * 100,
    compatibility_level := get_compatibility_level (points / 1) }

/-- `calculate_vashya_koota` (2 points max), with the reverse-order
fallback lookup when the first lookup yields 0. -/
def calculate_vashya_koota (person1_moon_sign person2_moon_sign : ZodiacSign) : KootaScore :=
  let person1_vashya := vashya_system person1_moon_sign
  let person2_vashya := vashya_system person2_moon_sign
  let points0 : ℕ := (vashya_compatibility.lookup (person1_vashya, person2_vashya)).getD 0
  let points : ℚ :=
    (if points0 = 0 then (vashya_compatibility.lookup (person2_vashya, person1_vashya)).getD 0
     else points0 : ℕ)
  { koota_type := .VASHYA, points_earned := points, max_points := 2,
    percentage := points / 2 * 100,
    compatibility_level := get_compatibility_level (points / 2) }

/-- `calculate_tara_koota` (3 points max); the argument `n : Fin 27`
stands for nakshatra number `n + 1`, distances use Python's `%` (always
nonnegative for a positive modulus). -/
def calculate_tara_koota (person1_nakshatra person2_nakshatra : Fin 27) : KootaScore :=
  let num1 : ℤ := person1_nakshatra.val + 1
  let num2 : ℤ := person2_nakshatra.val + 1
  let distance1 : ℤ := (num2 - num1) % 27 + 1
  let distance2 : ℤ := (num1 - num2) % 27 + 1
  let favorable_taras : List ℤ := [1, 3, 5, 7, 9]
  let points : ℚ :=
    if distance1 ∈ favorable_taras ∧ distance2 ∈ favorable_taras then 3
    else if distance1 ∈ favorable_taras ∨ distance2 ∈ favorable_taras then 3/2
    else 0
  { koota_type := .TARA, points_earned := points, max_points := 3,
    percentage := points / 3 * 100,
    compatibility_level := get_compatibility_level (points / 3) }

/-- The points computation of `calculate_yoni_koota`: direct lookup,
then reverse lookup on 0, then the default rule (4 when the animals are
identical, 2 otherwise). -/
def yoni_points (person1_yoni person2_yoni : Yoni) : ℕ :=
  let points0 : ℕ := (yoni_compatibility.lookup (person1_yoni, person2_yoni)).getD 0
  let points1 : ℕ :=
    if points0 = 0 then (yoni_compatibility.lookup (person2_yoni, person1_yoni)).getD 0
    else points0
  if points1 = 0 then (if person1_yoni = person2_yoni then 4 else 2) else points1

/-- `calculate_yoni_koota` (4 points max). -/
def calculate_yoni_koota (person1_nakshatra person2_nakshatra : Fin 27) : KootaScore :=
  let person1_yoni := (nakshatras person1_nakshatra).yoni
  let person2_yoni := (nakshatras person2_nakshatra).yoni
  let points : ℚ := (yoni_points person1_yoni person2_yoni : ℕ)
  { koota_type := .YONI, points_earned := points, max_points := 4,
    percentage := points / 4 * 100,
    compatibility_level := get_compatibility_level (points / 4) }

/-- The `sign_rulers` table of `calculate_grah_maitri_koota`. -/
def sign_rulers : ZodiacSign → Planet
  | .Aries => .MARS
  | .Taurus => .VENUS
  | .Gemini => .MERCURY
  | .Cancer => .MOON
  | .Leo => .SUN
  | .Virgo => .MERCURY
  | .Libra => .VENUS
  | .Scorpio => .MARS
  | .Sagittarius => .JUPITER
  | .Capricorn => .SATURN
  | .Aquarius => .SATURN
  | .Pisces => .JUPITER

/-- The `planet_friends` table (dict lookup with default `[]`). -/
def planet_friends : List (Planet × List Planet) :=
  [(.SUN, [.MOON, .MARS, .JUPITER]),
   (.MOON, [.SUN, .MERCURY]),
   (.MARS, [.SUN, .MOON, .JUPITER]),
   (.MERCURY, [.SUN, .VENUS]),
   (.JUPITER, [.SUN, .MOON, .MARS]),
   (.VENUS, [.MERCURY, .SATURN]),
   (.SATURN, [.MERCURY, .VENUS])]

/-- `calculate_grah_maitri_koota` (5 points max). -/
def calculate_grah_maitri_koota (person1_moon_sign person2_moon_sign : ZodiacSign) : KootaScore :=
  let person1_ruler := sign_rulers person1_moon_sign
  let person2_ruler := sign_rulers person2_moon_sign
  let points : ℚ :=
    if person1_ruler = person2_ruler then 5
    else if person2_ruler ∈ (planet_friends.lookup person1_ruler).getD [] then 4
    else if person1_ruler ∈ (planet_friends.lookup person2_ruler).getD [] then 4
    else 1
  { koota_type := .GRAH_MAITRI, points_earned := points, max_points := 5,
    percentage := points / 5 * 100,
    compatibility_level := get_compatibility_level (points / 5) }

/-- `calculate_gana_koota` (6 points max). -/
def calculate_gana_koota (person1_nakshatra person2_nakshatra : Fin 27) : KootaScore :=
  let person1_gana := (nakshatras person1_nakshatra).gana
  let person2_gana := (nakshatras person2_nakshatra).gana
  let points : ℚ := ((gana_compatibility.lookup (person1_gana, person2_gana)).getD 0 : ℕ)
  { koota_type := .GANA, points_earned := points, max_points := 6,
    percentage := points / 6 * 100,
    compatibility_level := get_compatibility_level (points / 6) }

/-- The `sign_numbers` table of `calculate_bhakoot_koota` (1-12). -/
def sign_numbers : ZodiacSign → ℕ
  | .Aries => 1
  | .Taurus => 2
  | .Gemini => 3
  | .Cancer => 4
  | .Leo => 5
  | .Virgo => 6
  | .Libra => 7
  | .Scorpio => 8
  | .Sagittarius => 9
  | .Capricorn => 10
  | .Aquarius => 11
  | .Pisces => 12

/-- The points computation of `calculate_bhakoot_koota`: absolute sign
difference, mirrored down when above 6, then the `bhakoot_compatibility`
lookup with default 0. -/
def bhakoot_points (person1_moon_sign person2_moon_sign : ZodiacSign) : ℕ :=
  let person1_sign_num : ℤ := sign_numbers person1_moon_sign
  let person2_sign_num : ℤ := sign_numbers person2_moon_sign
  let distance0 : ℕ := (person1_sign_num - person2_sign_num).natAbs
  let distance : ℕ := if 6 < distance0 then 12 - distance0 else distance0
  (bhakoot_compatibility.lookup distance).getD 0

/-- `calculate_bhakoot_koota` (7 points max). -/
def calculate_bhakoot_koota (person1_moon_sign person2_moon_sign : ZodiacSign) : KootaScore :=
  let points : ℚ := (bhakoot_points person1_moon_sign person2_moon_sign : ℕ)
  { koota_type := .BHAKOOT, points_earned := points, max_points := 7,
    percentage := points / 7 * 100,
    compatibility_level := get_compatibility_level (points / 7) }

/-- `calculate_nadi_koota` (8 points max). -/
def calculate_nadi_koota (person1_nakshatra person2_nakshatra : Fin 27) : KootaScore :=
  let person1_nadi := (nakshatras person1_nakshatra).nadi
  let person2_nadi := (nakshatras person2_nakshatra).nadi
  let points : ℚ := ((nadi_compatibility.lookup (person1_nadi, person2_nadi)).getD 0 : ℕ)
  { koota_type := .NADI, points_earned := points, max_points := 8,
    percentage := points / 8 * 100,
    compatibility_level := get_compatibility_level (points / 8) }

/-- The eight koota scores in the order `calculate_compatibility_match`
computes them, given both Moon signs and both Moon nakshatras. -/
def ashtakoota_scores (s1 s2 : ZodiacSign) (n1 n2 : Fin 27) : List KootaScore :=
  [calculate_varna_koota s1 s2,
   calculate_vashya_koota s1 s2,
   calculate_tara_koota n1 n2,
   calculate_yoni_koota n1 n2,
   calculate_grah_maitri_koota s1 s2,
   calculate_gana_koota n1 n2,
   calculate_bhakoot_koota s1 s2,
   calculate_nadi_koota n1 n2]

/-- `total_points = sum(koota.points_earned for koota in koota_scores)`. -/
def calculate_total_points (s1 s2 : ZodiacSign) (n1 n2 : Fin 27) : ℚ :=
  ((ashtakoota_scores s1 s2 n1 n2).map KootaScore.points_earned).sum

/-- `total_percentage = (total_points / 36) * 100`. -/
def calculate_total_percentage (s1 s2 : ZodiacSign) (n1 n2 : Fin 27) : ℚ :=
  calculate_total_points s1 s2 n1 n2 / 36 * 100

/-- `_get_overall_compatibility_level`: classify `total_points / 36`. -/
def get_overall_compatibility_level (total_points : ℚ) : CompatibilityLevel :=
  get_compatibility_level (total_points / 36)

/-- The `DoshaType` enumeration. -/
inductive DoshaType where
  | NADI | MANGLIK | BHAKOOT_D | GANA_D
deriving DecidableEq

/-- A `DoshaInfo` record (the free-text description is not modelled). -/
structure DoshaInfo where
  dosha_type : DoshaType
  person1_affected : Bool
  person2_affected : Bool
  severity : String
  cancelled : Bool
  cancellation_reason : Option String
  remedies : List String
deriving DecidableEq

/-- The per-person result of `calculate_manglik_dosha`. -/
structure ManglikResult where
  is_manglik : Bool
  mars_house : ℕ
  severity : String
deriving DecidableEq

/-- `calculate_manglik_dosha` as a function of Mars's house number:
Manglik when the house is one of 1, 2, 4, 7, 8, 12; severity "High" for
1, 4, 7, 8, 12 and "Medium" for 2, otherwise "None". -/
def calculate_manglik_dosha (mars_house : ℕ) : ManglikResult :=
  let manglik_houses : List ℕ := [1, 2, 4, 7, 8, 12]
  let is_manglik : Bool := decide (mars_house ∈ manglik_houses)
  let severity : String :=
    if is_manglik then
      (if mars_house ∈ ([1, 4, 7, 8, 12] : List ℕ) then "High"
       else if mars_house = 2 then "Medium" else "None")
    else "None"
  { is_manglik := is_manglik, mars_house := mars_house, severity := severity }

/-- The Manglik remedies list attached by `calculate_doshas`. -/
def manglik_remedies : List String :=
  ["Perform Mangal Shanti Puja",
   "Recite Hanuman Chalisa daily",
   "Wear red coral gemstone",
   "Fast on Tuesdays",
   "Worship Lord Hanuman"]

/-- The Manglik `DoshaInfo` that `calculate_doshas` builds from the two
Mars house numbers: cancelled exactly when both persons are Manglik,
remedies only when someone is affected and the dosha is not cancelled,
combined severity via Python string `max`. -/
def calculate_doshas_manglik (mars_house1 mars_house2 : ℕ) : DoshaInfo :=
  let person1_manglik := calculate_manglik_dosha mars_house1
  let person2_manglik := calculate_manglik_dosha mars_house2
  let cancelled := person1_manglik.is_manglik && person2_manglik.is_manglik
  let cancellation_reason : Option String :=
    if cancelled then some "Both persons are Manglik, dosha is cancelled" else none
  let remedies : List String :=
    if (person1_manglik.is_manglik || person2_manglik.is_manglik) && !cancelled
    then manglik_remedies else []
  { dosha_type := .MANGLIK,
    person1_affected := person1_manglik.is_manglik,
    person2_affected := person2_manglik.is_manglik,
    severity := pymax person1_manglik.severity person2_manglik.severity,
    cancelled := cancelled,
    cancellation_reason := cancellation_reason,
    remedies := remedies }

/-- The Nadi `DoshaInfo` that `calculate_doshas` builds from the two
Moon nakshatras: present (both persons affected, severity "High") when
the nadi classes coincide, never cancelled. -/
def calculate_doshas_nadi (person1_nakshatra person2_nakshatra : Fin 27) : DoshaInfo :=
  let person1_nadi := (nakshatras person1_nakshatra).nadi
  let person2_nadi := (nakshatras person2_nakshatra).nadi
  let nadi_dosha_present : Bool := decide (person1_nadi = person2_nadi)
  { dosha_type := .NADI,
    person1_affected := nadi_dosha_present,
    person2_affected := nadi_dosha_present,
    severity := if nadi_dosha_present then "High" else "None",
    cancelled := false,
    cancellation_reason := none,
    remedies :=
      if nadi_dosha_present then
        ["Perform Nadi Dosha remedies", "Consult astrologer for specific remedies"]
      else [] }

/-- The equal 30-degree cusp set `[0, 30, ..., 330]` from the spec's
house-placement scenario. -/
def equal_cusps : List ℚ :=
  [0, 30, 60, 90, 120, 150, 180, 210, 240, 270, 300, 330]

/-- The equal cusp set as a function on 0-based house indices. -/
def equal_cusps_fun : Fin 12 → ℚ := fun i => equal_cusps.getD i.val 0

/-- Proof infrastructure for the house-partition analysis: the cyclic
walk through the 0-based house indices starting just after index `k`. -/
def walk (k : Fin 12) (t : ℕ) : Fin 12 := k + 1 + (t : Fin 12)

/-- `pymod` is the identity on values already in `[0, m)`. -/
theorem pymod_eq_self {x m : ℚ} (h0 : 0 ≤ x) (h1 : x < m) : pymod x m = x := by
  have hm : 0 < m := lt_of_le_of_lt h0 h1
  have hfl : ⌊x / m⌋ = 0 := by
    rw [Int.floor_eq_zero_iff, Set.mem_Ico]
    exact ⟨div_nonneg h0 hm.le, (div_lt_one hm).mpr h1⟩
  simp [pymod, hfl]

theorem walk_zero (k : Fin 12) : walk k 0 = k + 1 := by
  simp [walk]

theorem walk_succ (k : Fin 12) (t : ℕ) : walk k (t + 1) = walk k t + 1 := by
  unfold walk
  push_cast
  ring

theorem walk_eleven (k : Fin 12) : walk k 11 = k := by
  have h : (1 : Fin 12) + ((11 : ℕ) : Fin 12) = 0 := by decide
  rw [walk, add_assoc, h, add_zero]

theorem walk_ne_base {k : Fin 12} {t : ℕ} (ht : t ≤ 10) : walk k t ≠ k := by
  intro hEq
  rw [walk, add_assoc] at hEq
  have h1 : (1 : Fin 12) + (t : Fin 12) = 0 := add_right_eq_self.mp hEq
  have h2 : (t : Fin 12) = 11 := by
    have h3 : (t : Fin 12) = -(1 : Fin 12) := eq_neg_of_add_eq_zero_right h1
    rw [h3]; decide
  have h4 : t % 12 = 11 := by
    have h5 := congrArg Fin.val h2
    rw [Fin.val_natCast] at h5
    exact h5
  omega

theorem walk_val_sub (k i : Fin 12) : walk k ((i - (k + 1)).val) = i := by
  rw [walk, Fin.cast_val_eq_self]
  ring

/-- Away from the unique descent, the cusps grow weakly along the walk. -/
theorem chain_step (c : Fin 12 → ℚ) (k : Fin 12)
    (hu : ∀ i, c (i + 1) < c i → i = k) {t : ℕ} (ht : t ≤ 10) :
    c (walk k t) ≤ c (walk k (t + 1)) := by
  rw [walk_succ]
  by_contra hlt
  push_neg at hlt
  exact walk_ne_base ht (hu _ hlt)

theorem chain_mono (c : Fin 12 → ℚ) (k : Fin 12)
    (hu : ∀ i, c (i + 1) < c i → i = k) :
    ∀ {s t : ℕ}, s ≤ t → t ≤ 11 → c (walk k s) ≤ c (walk k t) := by
  intro s t
  induction t with
  | zero =>
    intro hst _
    have hs0 : s = 0 := Nat.le_zero.mp hst
    subst hs0
    exact le_refl _
  | succ n ih =>
    intro hst hn
    rcases Nat.eq_or_lt_of_le hst with he | hl
    · subst he
      exact le_refl _
    · exact le_trans (ih (Nat.lt_succ_iff.mp hl) (by omega)) (chain_step c k hu (by omega))

/-- With one descent at `k`, every longitude matches some house. -/
theorem house_condition_exists (c : Fin 12 → ℚ) (L : ℚ) (k : Fin 12)
    (hk : c (k + 1) < c k) (hu : ∀ i, c (i + 1) < c i → i = k) :
    ∃ i, house_condition c L i := by
  by_cases hA : c k ≤ L ∨ L < c (k + 1)
  · refine ⟨k, ?_⟩
    unfold house_condition
    rw [if_pos hk]
    exact hA
  · push_neg at hA
    obtain ⟨hA1, hA2⟩ := hA
    set T := (Finset.range 12).filter (fun t => c (walk k t) ≤ L) with hT
    have h0T : (0 : ℕ) ∈ T := by
      refine Finset.mem_filter.mpr ⟨Finset.mem_range.mpr (by omega), ?_⟩
      rw [walk_zero]
      exact hA2
    have hne : T.Nonempty := ⟨0, h0T⟩
    set t0 := T.max' hne with ht0def
    have hmem := Finset.mem_filter.mp (T.max'_mem hne)
    have hlt12 : t0 < 12 := Finset.mem_range.mp hmem.1
    have hcle : c (walk k t0) ≤ L := hmem.2
    have h11 : t0 ≠ 11 := by
      intro h
      rw [h, walk_eleven] at hcle
      exact absurd hcle (not_le.mpr hA1)
    have ht0le : t0 ≤ 10 := by omega
    have hnotmem : t0 + 1 ∉ T := by
      intro hmem2
      have := Finset.le_max' T (t0 + 1) hmem2
      omega
    have hnext : L < c (walk k (t0 + 1)) := by
      by_contra hcon
      push_neg at hcon
      exact hnotmem (Finset.mem_filter.mpr ⟨Finset.mem_range.mpr (by omega), hcon⟩)
    refine ⟨walk k t0, ?_⟩
    have hne_k : walk k t0 ≠ k := walk_ne_base ht0le
    have hnd : ¬ c (walk k t0 + 1) < c (walk k t0) := fun hd => hne_k (hu _ hd)
    unfold house_condition
    rw [if_neg hnd]
    refine ⟨hcle, ?_⟩
    rw [← walk_succ]
    exact hnext

/-- A match away from the descent index is an interval match. -/
theorem house_condition_normal (c : Fin 12 → ℚ) (L : ℚ) (k : Fin 12)
    (hu : ∀ i, c (i + 1) < c i → i = k) {i : Fin 12} (hik : i ≠ k)
    (h : house_condition c L i) : c i ≤ L ∧ L < c (i + 1) := by
  unfold house_condition at h
  by_cases hd : c (i + 1) < c i
  · exact absurd (hu i hd) hik
  · rwa [if_neg hd] at h

/-- The wraparound house and an interval house cannot both match. -/
theorem wrap_normal_clash (c : Fin 12 → ℚ) (L : ℚ) (k : Fin 12)
    (hk : c (k + 1) < c k) (hu : ∀ i, c (i + 1) < c i → i = k)
    {j : Fin 12} (hjk : j ≠ k)
    (hwrap : house_condition c L k) (hj : house_condition c L j) : False := by
  obtain ⟨hj1, hj2⟩ := house_condition_normal c L k hu hjk hj
  have hwalk : walk k ((j - (k + 1)).val) = j := walk_val_sub k j
  set t := (j - (k + 1)).val with htdef
  have htlt : t < 12 := (j - (k + 1)).isLt
  have ht11 : t ≠ 11 := by
    intro h
    rw [h, walk_eleven] at hwalk
    exact hjk hwalk.symm
  unfold house_condition at hwrap
  rw [if_pos hk] at hwrap
  rcases hwrap with hck | hlt
  · have hchain : c (walk k (t + 1)) ≤ c (walk k 11) := chain_mono c k hu (by omega) (by omega)
    rw [walk_eleven] at hchain
    rw [walk_succ, hwalk] at hchain
    exact lt_irrefl L (lt_of_lt_of_le hj2 (le_trans hchain hck))
  · have hchain : c (walk k 0) ≤ c (walk k t) := chain_mono c k hu (by omega) (by omega)
    rw [walk_zero, hwalk] at hchain
    exact lt_irrefl L (lt_of_lt_of_le hlt (le_trans hchain hj1))

/-- Two distinct interval houses cannot both match. -/
theorem normal_pair_clash (c : Fin 12 → ℚ) (L : ℚ) (k : Fin 12)
    (hu : ∀ i, c (i + 1) < c i → i = k)
    {s t : ℕ} (hst : s < t) (ht : t ≤ 10)
    (hs2 : L < c (walk k s + 1)) (ht1 : c (walk k t) ≤ L) : False := by
  have hchain : c (walk k (s + 1)) ≤ c (walk k t) := chain_mono c k hu (by omega) (by omega)
  rw [walk_succ] at hchain
  exact lt_irrefl L (lt_of_lt_of_le hs2 (le_trans hchain ht1))

/-- At most one house matches a given longitude. -/
theorem house_condition_unique (c : Fin 12 → ℚ) (L : ℚ) (k : Fin 12)
    (hk : c (k + 1) < c k) (hu : ∀ i, c (i + 1) < c i → i = k) :
    ∀ i j : Fin 12, house_condition c L i → house_condition c L j → i = j := by
  intro i j hi hj
  by_cases hik : i = k
  · subst hik
    by_cases hjk : j = i
    · exact hjk.symm
    · exact (wrap_normal_clash c L i hk hu hjk hi hj).elim
  · by_cases hjk : j = k
    · subst hjk
      exact (wrap_normal_clash c L j hk hu hik hj hi).elim
    · by_cases hij : i = j
      · exact hij
      · obtain ⟨hi1, hi2⟩ := house_condition_normal c L k hu hik hi
        obtain ⟨hj1, hj2⟩ := house_condition_normal c L k hu hjk hj
        have hwi : walk k ((i - (k + 1)).val) = i := walk_val_sub k i
        have hwj : walk k ((j - (k + 1)).val) = j := walk_val_sub k j
        set s := (i - (k + 1)).val with hsdef
        set t := (j - (k + 1)).val with htdef
        have hs12 : s < 12 := (i - (k + 1)).isLt
        have ht12 : t < 12 := (j - (k + 1)).isLt
        have hs11 : s ≠ 11 := by
          intro h
          rw [h, walk_eleven] at hwi
          exact hik hwi.symm
        have ht11 : t ≠ 11 := by
          intro h
          rw [h, walk_eleven] at hwj
          exact hjk hwj.symm
        have hstne : s ≠ t := by
          intro h
          apply hij
          rw [← hwi, h, hwj]
        rcases Nat.lt_or_ge s t with hlt | hge
        · refine (normal_pair_clash c L k hu hlt (by omega) ?_ ?_).elim
          · rw [hwi]; exact hi2
          · rw [hwj]; exact hj1
        · have hlt2 : t < s := by omega
          refine (normal_pair_clash c L k hu hlt2 (by omega) ?_ ?_).elim
          · rw [hwj]; exact hj2
          · rw [hwi]; exact hi1

/-- `get_house_number` always lands in 1..12, on any input. -/
theorem get_house_number_bounds (L : ℚ) (cusps : List ℚ) :
    1 ≤ get_house_number L cusps ∧ get_house_number L cusps ≤ 12 := by
  unfold get_house_number
  split
  next i hfind =>
    have hmem := List.mem_of_find?_eq_some hfind
    rw [List.mem_range] at hmem
    omega
  next => omega

/-- `getD` access into the normalized cusp list built from a 12-entry
cusp function. -/
theorem normalized_getD (c : Fin 12 → ℚ) (t : ℕ) (htl : t < 12) :
    ((List.ofFn c).map (fun cusp => pymod cusp 360)).getD t 0 = pymod (c ⟨t, htl⟩) 360 := by
  have hlen : ((List.ofFn c).map (fun cusp => pymod cusp 360)).length = 12 := by simp
  rw [List.getD_eq_getElem _ _ (by rw [hlen]; exact htl)]
  rw [List.getElem_map, List.getElem_ofFn]

/-- For in-range cusps and longitude, the scan predicate at index `t`
agrees with `house_condition` at `⟨t, _⟩`. -/
theorem house_scan_iff (c : Fin 12 → ℚ) (L : ℚ)
    (hc : ∀ i, 0 ≤ c i ∧ c i < 360) (hL0 : 0 ≤ L) (hL1 : L < 360)
    (t : ℕ) (htl : t < 12) :
    house_scan L (List.ofFn c) t = true ↔ house_condition c L ⟨t, htl⟩ := by
  have hLpm : pymod L 360 = L := pymod_eq_self hL0 hL1
  have hcpm : ∀ j : Fin 12, pymod (c j) 360 = c j :=
    fun j => pymod_eq_self (hc j).1 (hc j).2
  have hmodlt : (t + 1) % 12 < 12 := Nat.mod_lt _ (by omega)
  have hnext : (⟨(t + 1) % 12, hmodlt⟩ : Fin 12) = ⟨t, htl⟩ + 1 := by
    apply Fin.ext
    simp [Fin.add_def]
  show (if ((List.ofFn c).map (fun cusp => pymod cusp 360)).getD ((t + 1) % 12) 0 <
            ((List.ofFn c).map (fun cusp => pymod cusp 360)).getD t 0 then
          decide (((List.ofFn c).map (fun cusp => pymod cusp 360)).getD t 0 ≤ pymod L 360) ||
            decide (pymod L 360 < ((List.ofFn c).map (fun cusp => pymod cusp 360)).getD ((t + 1) % 12) 0)
        else
          decide (((List.ofFn c).map (fun cusp => pymod cusp 360)).getD t 0 ≤ pymod L 360) &&
            decide (pymod L 360 < ((List.ofFn c).map (fun cusp => pymod cusp 360)).getD ((t + 1) % 12) 0)) = true
      ↔ house_condition c L ⟨t, htl⟩
  rw [normalized_getD c t htl, normalized_getD c ((t + 1) % 12) hmodlt,
    hcpm, hcpm, hLpm, hnext]
  unfold house_condition
  by_cases hcond : c (⟨t, htl⟩ + 1) < c ⟨t, htl⟩
  · rw [if_pos hcond, if_pos hcond]
    simp
  · rw [if_neg hcond, if_neg hcond]
    simp

/-- For in-range inputs with a unique descent, `get_house_number`
returns exactly the (1-based) matching house. -/
theorem get_house_number_eq (c : Fin 12 → ℚ) (L : ℚ)
    (hc : ∀ i, 0 ≤ c i ∧ c i < 360) (hL0 : 0 ≤ L) (hL1 : L < 360)
    (k : Fin 12) (hk : c (k + 1) < c k) (hu : ∀ i, c (i + 1) < c i → i = k)
    (i : Fin 12) (hi : house_condition c L i) :
    get_house_number L (List.ofFn c) = i.val + 1 := by
  have hpi : house_scan L (List.ofFn c) i.val = true := by
    rw [house_scan_iff c L hc hL0 hL1 i.val i.isLt]
    simpa using hi
  have hsome : ∃ j, (List.range 12).find? (house_scan L (List.ofFn c)) = some j := by
    have hs : ((List.range 12).find? (house_scan L (List.ofFn c))).isSome := by
      rw [List.find?_isSome]
      exact ⟨i.val, List.mem_range.mpr i.isLt, hpi⟩
    exact Option.isSome_iff_exists.mp hs
  obtain ⟨j, hj⟩ := hsome
  have hjlt : j < 12 := List.mem_range.mp (List.mem_of_find?_eq_some hj)
  have hjp : house_scan L (List.ofFn c) j = true := List.find?_some hj
  have hjc : house_condition c L ⟨j, hjlt⟩ := (house_scan_iff c L hc hL0 hL1 j hjlt).mp hjp
  have hij : (⟨j, hjlt⟩ : Fin 12) = i := house_condition_unique c L k hk hu ⟨j, hjlt⟩ i hjc hi
  unfold get_house_number
  rw [hj]
  show j + 1 = i.val + 1
  have : j = i.val := by
    have := congrArg Fin.val hij
    simpa using this
  omega

theorem manglik_severity_none {h : ℕ}
    (hm : (calculate_manglik_dosha h).is_manglik = false) :
    (calculate_manglik_dosha h).severity = "None" := by
  simp only [calculate_manglik_dosha, decide_eq_false_iff_not] at hm
  simp [calculate_manglik_dosha, hm]

theorem manglik_severity_cases {h : ℕ}
    (hm : (calculate_manglik_dosha h).is_manglik = true) :
    (calculate_manglik_dosha h).severity = "High" ∨
      (calculate_manglik_dosha h).severity = "Medium" := by
  have hmem : h ∈ ([1, 2, 4, 7, 8, 12] : List ℕ) := by
    simpa [calculate_manglik_dosha] using hm
  fin_cases hmem <;> decide

/-- C1: the Bhakoot scorer never awards the advertised full 7 points.
At Moon signs a circular seventh apart (e.g. sign numbers 1 and 8, here
Aries and Scorpio, and likewise the opposition pair Aries and Libra) it
awards 0; the mirrored distance always lands in 0..6, so the table row
`7: 7` is unreachable and every Bhakoot score is at most 3, although the
table itself does say distance 7 scores 7. -/
theorem bhakoot_distance_seven_bug :
    bhakoot_points ZodiacSign.Aries ZodiacSign.Scorpio = 0 ∧
    bhakoot_points ZodiacSign.Aries ZodiacSign.Libra = 0 ∧
    (∀ s1 s2 : ZodiacSign, bhakoot_points s1 s2 ≤ 3) ∧
    (bhakoot_compatibility.lookup 7).getD 0 = 7 ∧
    (calculate_bhakoot_koota ZodiacSign.Aries ZodiacSign.Scorpio).points_earned = 0 := by
  decide

/-- C2 (counterexample): on an ephemeris where the true node's
longitudinal speed is positive, the synthesized Ketu entry has
`retrograde = false`, refuting "its retrograde flag is always true, for
all possible north-node speeds returned by the ephemeris". -/
theorem ketu_retrograde_counterexample :
    ((calculate_planet_positions direct_node_ephemeris equal_cusps 0).find?
        (fun p => decide (p.planet = Planet.KETU))).map PlanetPosition.retrograde =
      some false := by
  rfl

/-- C2 (amended): for every ephemeris result, cusp list and ayanamsa,
the synthesized Ketu entry has longitude `normalize(rahu sidereal
longitude + 180)`, negated latitude and speed, sign/degree/house resolved
from its own longitude — and a retrograde flag equal to
`north-node speed < 0` (the north node's own retrograde test) rather
than forced true. -/
theorem ketu_synthesis_amended (calc_ut : Planet → CalcResult)
    (house_cusps : List ℚ) (ayanamsa_value : ℚ) :
    ((calculate_planet_positions calc_ut house_cusps ayanamsa_value).find?
        (fun p => decide (p.planet = Planet.KETU))) =
      some { planet := Planet.KETU
             longitude := pymod
               (apply_ayanamsa_correction (calc_ut Planet.RAHU).longitude ayanamsa_value + 180) 360
             latitude := -(calc_ut Planet.RAHU).latitude
             distance := (calc_ut Planet.RAHU).distance
             speed := -(calc_ut Planet.RAHU).speed
             sign := get_zodiac_sign (pymod
               (apply_ayanamsa_correction (calc_ut Planet.RAHU).longitude ayanamsa_value + 180) 360)
             degree := get_degree_in_sign (pymod
               (apply_ayanamsa_correction (calc_ut Planet.RAHU).longitude ayanamsa_value + 180) 360)
             house := get_house_number (pymod
               (apply_ayanamsa_correction (calc_ut Planet.RAHU).longitude ayanamsa_value + 180) 360)
               house_cusps
             retrograde := decide ((calc_ut Planet.RAHU).speed < 0) } := by
  rfl

/-- C3: a chart request whose calendar year is outside 1900-2100, even
when everything else is well-formed, does not proceed with a warning: the
validator raises, so the whole request fails with an error. -/
theorem birth_year_range_error :
    (∀ b : BirthDataCheck, b.date_parses = true →
       (b.year < 1900 ∨ 2100 < b.year) →
       validate_birth_data b ≠ Except.ok ()) ∧
    validate_birth_data
        { date_parses := true, year := 1880, time_parses := true,
          latitude := 0, longitude := 0,
          timezone_given := true, timezone_known := true } =
      Except.error [ValidationIssue.year_out_of_range] := by
  constructor
  · intro b hd hy hcon
    have hz : validation_errors b ≠ [] := by
      unfold validation_errors
      rw [hd]
      simp [if_pos hy]
    unfold validate_birth_data at hcon
    rw [if_neg hz] at hcon
    exact Except.noConfusion hcon
  · rfl

theorem birth_year_range_error_witness :
    validate_birth_data
        { date_parses := true, year := 1880, time_parses := true,
          latitude := 0, longitude := 0,
          timezone_given := true, timezone_known := true } ≠
      Except.ok () :=
  birth_year_range_error.1 _ rfl (by norm_num)

/-- C4: for any 12-cusp set in `[0, 360)` with exactly one cyclic
descent (a well-formed partition of the circle) and any longitude in
`[0, 360)`, exactly one 0-based index satisfies the house rule,
`get_house_number` returns that index plus one, the result is always in
1..12, and on the equal cusps `[0, 30, ..., 330]` longitude 359 maps to
house 12 and longitude 1 maps to house 1. -/
theorem house_placement_unique (c : Fin 12 → ℚ) (L : ℚ)
    (hcusps : ∀ i, 0 ≤ c i ∧ c i < 360) (hL : 0 ≤ L ∧ L < 360)
    (hpartition : ∃! kk : Fin 12, c (kk + 1) < c kk) :
    (∃! i : Fin 12, house_condition c L i) ∧
    (∀ i : Fin 12, house_condition c L i →
       get_house_number L (List.ofFn c) = i.val + 1) ∧
    1 ≤ get_house_number L (List.ofFn c) ∧ get_house_number L (List.ofFn c) ≤ 12 ∧
    get_house_number 359 equal_cusps = 12 ∧ get_house_number 1 equal_cusps = 1 := by
  obtain ⟨k, hk, hu'⟩ := hpartition
  have hu : ∀ i, c (i + 1) < c i → i = k := fun i hd => hu' i hd
  obtain ⟨i0, hi0⟩ := house_condition_exists c L k hk hu
  have heq : List.ofFn equal_cusps_fun = equal_cusps := by decide
  have hscen1 : get_house_number 359 equal_cusps = 12 := by
    have h := get_house_number_eq equal_cusps_fun 359 (by decide) (by norm_num) (by norm_num)
      ⟨11, by omega⟩ (by decide) (by decide) ⟨11, by omega⟩ (by decide)
    rw [heq] at h
    simpa using h
  have hscen2 : get_house_number 1 equal_cusps = 1 := by
    have h := get_house_number_eq equal_cusps_fun 1 (by decide) (by norm_num) (by norm_num)
      ⟨11, by omega⟩ (by decide) (by decide) ⟨0, by omega⟩ (by decide)
    rw [heq] at h
    simpa using h
  exact ⟨⟨i0, hi0, fun j hj => house_condition_unique c L k hk hu j i0 hj hi0⟩,
    fun i hi => get_house_number_eq c L hcusps hL.1 hL.2 k hk hu i hi,
    (get_house_number_bounds L (List.ofFn c)).1,
    (get_house_number_bounds L (List.ofFn c)).2,
    hscen1, hscen2⟩

theorem house_placement_unique_witness :
    (∃! i : Fin 12, house_condition equal_cusps_fun 45 i) ∧
    (∀ i : Fin 12, house_condition equal_cusps_fun 45 i →
       get_house_number 45 (List.ofFn equal_cusps_fun) = i.val + 1) ∧
    1 ≤ get_house_number 45 (List.ofFn equal_cusps_fun) ∧
    get_house_number 45 (List.ofFn equal_cusps_fun) ≤ 12 ∧
    get_house_number 359 equal_cusps = 12 ∧ get_house_number 1 equal_cusps = 1 :=
  house_placement_unique equal_cusps_fun 45 (by decide) ⟨by norm_num, by norm_num⟩
    ⟨⟨11, by omega⟩, by decide, by decide⟩

/-- C5: the eight koota maxima sum to exactly 36, the overall percentage
is `total points / 36 × 100`, and every level threshold is inclusive on
its lower bound, so a ratio of exactly 90% (and an overall score of
exactly 32.4 of 36) classifies as Excellent. -/
theorem ashtakoota_totals :
    (∀ s1 s2 : ZodiacSign, ∀ n1 n2 : Fin 27,
       ((ashtakoota_scores s1 s2 n1 n2).map KootaScore.max_points).sum = 36 ∧
       calculate_total_percentage s1 s2 n1 n2 =
         calculate_total_points s1 s2 n1 n2 / 36 * 100) ∧
    get_compatibility_level (9 / 10) = CompatibilityLevel.EXCELLENT ∧
    get_compatibility_level (3 / 4) = CompatibilityLevel.VERY_GOOD ∧
    get_compatibility_level (3 / 5) = CompatibilityLevel.GOOD ∧
    get_compatibility_level (2 / 5) = CompatibilityLevel.AVERAGE ∧
    get_compatibility_level (1 / 5) = CompatibilityLevel.BELOW_AVERAGE ∧
    get_overall_compatibility_level (162 / 5) = CompatibilityLevel.EXCELLENT := by
  refine ⟨?_, ?_, ?_, ?_, ?_, ?_, ?_⟩
  · intro s1 s2 n1 n2
    refine ⟨?_, rfl⟩
    norm_num [ashtakoota_scores, calculate_varna_koota, calculate_vashya_koota,
      calculate_tara_koota, calculate_yoni_koota, calculate_grah_maitri_koota,
      calculate_gana_koota, calculate_bhakoot_koota, calculate_nadi_koota]
  · norm_num [get_compatibility_level]
  · norm_num [get_compatibility_level]
  · norm_num [get_compatibility_level]
  · norm_num [get_compatibility_level]
  · norm_num [get_compatibility_level]
  · norm_num [get_overall_compatibility_level, get_compatibility_level]

/-- C6: a person is Manglik exactly when Mars's house is one of
1, 2, 4, 7, 8, 12; the per-person severity is "High" for
1, 4, 7, 8, 12 and "Medium" for house 2; the combined dosha is cancelled
exactly when both persons are Manglik, the affected flags mirror the
per-person results, remedies are attached exactly when someone is
affected and the dosha is not cancelled, and with Mars in house 7 for
both persons both are affected and the dosha is cancelled. -/
theorem manglik_dosha_rules :
    (∀ h : ℕ, (calculate_manglik_dosha h).is_manglik = true ↔
       h ∈ ([1, 2, 4, 7, 8, 12] : List ℕ)) ∧
    (∀ h : ℕ, (calculate_manglik_dosha h).severity =
       (if h ∈ ([1, 4, 7, 8, 12] : List ℕ) then "High"
        else if h = 2 then "Medium" else "None")) ∧
    (∀ h1 h2 : ℕ, (calculate_doshas_manglik h1 h2).cancelled =
       ((calculate_manglik_dosha h1).is_manglik &&
        (calculate_manglik_dosha h2).is_manglik)) ∧
    (∀ h1 h2 : ℕ,
       (calculate_doshas_manglik h1 h2).person1_affected =
         (calculate_manglik_dosha h1).is_manglik ∧
       (calculate_doshas_manglik h1 h2).person2_affected =
         (calculate_manglik_dosha h2).is_manglik) ∧
    (∀ h1 h2 : ℕ, (calculate_doshas_manglik h1 h2).remedies =
       (if ((calculate_manglik_dosha h1).is_manglik ||
            (calculate_manglik_dosha h2).is_manglik) &&
           !((calculate_manglik_dosha h1).is_manglik &&
             (calculate_manglik_dosha h2).is_manglik)
        then manglik_remedies else [])) ∧
    ((calculate_doshas_manglik 7 7).person1_affected = true ∧
     (calculate_doshas_manglik 7 7).person2_affected = true ∧
     (calculate_doshas_manglik 7 7).cancelled = true ∧
     (calculate_doshas_manglik 7 7).remedies = []) := by
  refine ⟨?_, ?_, fun h1 h2 => rfl, fun h1 h2 => ⟨rfl, rfl⟩, fun h1 h2 => rfl, by decide⟩
  · intro h
    simp [calculate_manglik_dosha]
  · intro h
    by_cases h5 : h ∈ ([1, 4, 7, 8, 12] : List ℕ)
    · have h6 : h ∈ ([1, 2, 4, 7, 8, 12] : List ℕ) := by
        simp at h5 ⊢
        omega
      simp [calculate_manglik_dosha, h5, h6]
    · by_cases h2 : h = 2
      · subst h2
        decide
      · have h6 : h ∉ ([1, 2, 4, 7, 8, 12] : List ℕ) := by
          simp at h5 ⊢
          omega
        simp [calculate_manglik_dosha, h5, h6, h2]

/-- C7: Nadi scoring is the two-valued function of the Moon nakshatras'
nadi classes: equal classes earn 0 of 8 points and produce a dosha with
both persons affected at severity "High" and no cancellation; different
classes earn 8 of 8 and produce no dosha (severity "None", neither
affected). -/
theorem nadi_scoring_rules :
    ∀ n1 n2 : Fin 27,
      (calculate_nadi_koota n1 n2).points_earned =
        (if (nakshatras n1).nadi = (nakshatras n2).nadi then 0 else 8) ∧
      (calculate_nadi_koota n1 n2).max_points = 8 ∧
      (calculate_doshas_nadi n1 n2).person1_affected =
        decide ((nakshatras n1).nadi = (nakshatras n2).nadi) ∧
      (calculate_doshas_nadi n1 n2).person2_affected =
        decide ((nakshatras n1).nadi = (nakshatras n2).nadi) ∧
      (calculate_doshas_nadi n1 n2).severity =
        (if (nakshatras n1).nadi = (nakshatras n2).nadi then "High" else "None") ∧
      (calculate_doshas_nadi n1 n2).cancelled = false := by
  decide

/-- C8: for Moon longitudes in `[0, 360)` the computed nakshatra number
is `floor(longitude / (360/27)) + 1`, which lies in 1..27; longitude 0
yields nakshatra 1 and longitude 359.99 yields nakshatra 27. -/
theorem nakshatra_index_formula :
    (∀ L : ℚ, 0 ≤ L → L < 360 →
       calculate_nakshatra_from_moon L = ⌊L / (360 / 27)⌋ + 1 ∧
       1 ≤ calculate_nakshatra_from_moon L ∧
       calculate_nakshatra_from_moon L ≤ 27) ∧
    calculate_nakshatra_from_moon 0 = 1 ∧
    calculate_nakshatra_from_moon (35999 / 100) = 27 := by
  have key : ∀ L : ℚ, 0 ≤ L → L < 360 →
      calculate_nakshatra_from_moon L = ⌊L / (360 / 27)⌋ + 1 ∧
      1 ≤ calculate_nakshatra_from_moon L ∧
      calculate_nakshatra_from_moon L ≤ 27 := by
    intro L h0 h1
    have hspan : (13 + 20 / 60 : ℚ) = 360 / 27 := by norm_num
    have hpos : (0 : ℚ) < 360 / 27 := by norm_num
    have hdiv0 : 0 ≤ L / (360 / 27) := div_nonneg h0 hpos.le
    have hfl0 : 0 ≤ ⌊L / (360 / 27)⌋ := Int.floor_nonneg.mpr hdiv0
    have hflt : ⌊L / (360 / 27)⌋ < 27 := by
      rw [Int.floor_lt]
      push_cast
      rw [div_lt_iff₀ hpos]
      linarith
    have heq : calculate_nakshatra_from_moon L = ⌊L / (360 / 27)⌋ + 1 := by
      show min (pyint (L / (13 + 20 / 60)) + 1) 27 = ⌊L / (360 / 27)⌋ + 1
      rw [hspan]
      unfold pyint
      rw [if_pos hdiv0]
      exact min_eq_left (by omega)
    exact ⟨heq, by rw [heq]; omega, by rw [heq]; omega⟩
  refine ⟨key, ?_, ?_⟩
  · have h := key 0 (by norm_num) (by norm_num)
    rw [h.1]
    norm_num
  · have h := key (35999 / 100) (by norm_num) (by norm_num)
    rw [h.1]
    norm_num

theorem nakshatra_index_formula_witness :
    calculate_nakshatra_from_moon 100 = ⌊(100 : ℚ) / (360 / 27)⌋ + 1 ∧
    1 ≤ calculate_nakshatra_from_moon 100 ∧
    calculate_nakshatra_from_moon 100 ≤ 27 :=
  nakshatra_index_formula.1 100 (by norm_num) (by norm_num)

/-- C9: the Yoni scorer's final result is never below 2 points: the
enemy pairs listed with 0 in the matrix (Serpent-Mongoose, Cat-Rat,
Tiger-Deer) fall through the zero-valued lookup to the default rule and
land at 2, and every nakshatra pair earns at least 2 of 4. -/
theorem yoni_minimum_points :
    yoni_points Yoni.Serpent Yoni.Mongoose = 2 ∧
    yoni_points Yoni.Mongoose Yoni.Serpent = 2 ∧
    yoni_points Yoni.Cat Yoni.Rat = 2 ∧
    yoni_points Yoni.Rat Yoni.Cat = 2 ∧
    yoni_points Yoni.Tiger Yoni.Deer = 2 ∧
    yoni_points Yoni.Deer Yoni.Tiger = 2 ∧
    (∀ y1 y2 : Yoni, 2 ≤ yoni_points y1 y2) ∧
    (∀ n1 n2 : Fin 27, 2 ≤ (calculate_yoni_koota n1 n2).points_earned) := by
  decide

/-- C10: the combined Manglik severity is Python's string `max` of the
two per-person severities, which under lexicographic comparison orders
"None" above "Medium" above "High"; hence when exactly one person is
Manglik the combined severity is "None", and a High-Medium pair reports
"Medium". -/
theorem manglik_combined_severity :
    (∀ h1 h2 : ℕ, (calculate_doshas_manglik h1 h2).severity =
       pymax (calculate_manglik_dosha h1).severity
         (calculate_manglik_dosha h2).severity) ∧
    pymax "High" "Medium" = "Medium" ∧ pymax "Medium" "High" = "Medium" ∧
    pymax "High" "None" = "None" ∧ pymax "None" "High" = "None" ∧
    pymax "Medium" "None" = "None" ∧ pymax "None" "Medium" = "None" ∧
    (∀ h1 h2 : ℕ, (calculate_manglik_dosha h1).is_manglik = true →
       (calculate_manglik_dosha h2).is_manglik = false →
       (calculate_doshas_manglik h1 h2).severity = "None") ∧
    (∀ h1 h2 : ℕ, (calculate_manglik_dosha h1).is_manglik = false →
       (calculate_manglik_dosha h2).is_manglik = true →
       (calculate_doshas_manglik h1 h2).severity = "None") ∧
    (∀ h1 h2 : ℕ, (calculate_manglik_dosha h1).severity = "High" →
       (calculate_manglik_dosha h2).severity = "Medium" →
       (calculate_doshas_manglik h1 h2).severity = "Medium") ∧
    (∀ h1 h2 : ℕ, (calculate_manglik_dosha h1).severity = "Medium" →
       (calculate_manglik_dosha h2).severity = "High" →
       (calculate_doshas_manglik h1 h2).severity = "Medium") := by
  refine ⟨fun h1 h2 => rfl, by decide, by decide, by decide, by decide, by decide, by decide,
    ?_, ?_, ?_, ?_⟩
  · intro h1 h2 hm1 hm2
    have hs2 : (calculate_manglik_dosha h2).severity = "None" := manglik_severity_none hm2
    have hcomb : (calculate_doshas_manglik h1 h2).severity =
        pymax (calculate_manglik_dosha h1).severity (calculate_manglik_dosha h2).severity := rfl
    rw [hcomb, hs2]
    rcases manglik_severity_cases hm1 with hs1 | hs1 <;> rw [hs1] <;> decide
  · intro h1 h2 hm1 hm2
    have hs1 : (calculate_manglik_dosha h1).severity = "None" := manglik_severity_none hm1
    have hcomb : (calculate_doshas_manglik h1 h2).severity =
        pymax (calculate_manglik_dosha h1).severity (calculate_manglik_dosha h2).severity := rfl
    rw [hcomb, hs1]
    rcases manglik_severity_cases hm2 with hs2 | hs2 <;> rw [hs2] <;> decide
  · intro h1 h2 hs1 hs2
    have hcomb : (calculate_doshas_manglik h1 h2).severity =
        pymax (calculate_manglik_dosha h1).severity (calculate_manglik_dosha h2).severity := rfl
    rw [hcomb, hs1, hs2]
    decide
  · intro h1 h2 hs1 hs2
    have hcomb : (calculate_doshas_manglik h1 h2).severity =
        pymax (calculate_manglik_dosha h1).severity (calculate_manglik_dosha h2).severity := rfl
    rw [hcomb, hs1, hs2]
    decide

theorem manglik_combined_severity_witness :
    (calculate_doshas_manglik 7 3).severity = "None" ∧
    (calculate_doshas_manglik 3 7).severity = "None" ∧
    (calculate_doshas_manglik 7 2).severity = "Medium" ∧
    (calculate_doshas_manglik 2 7).severity = "Medium" := by
  have h := manglik_combined_severity
  exact ⟨h.2.2.2.2.2.2.2.1 7 3 (by decide) (by decide),
    h.2.2.2.2.2.2.2.2.1 3 7 (by decide) (by decide),
    h.2.2.2.2.2.2.2.2.2.1 7 2 (by decide) (by decide),
    h.2.2.2.2.2.2.2.2.2.2 2 7 (by decide) (by decide)⟩
